import Mathlib

/-!
Shallow embedding of the authentication/session subsystem of the
proddev-backend repository (src/backend): the token codec
(`utils/auth.py`), the credential hasher wrapper (`utils/auth.py`),
the auth service operations (`services/auth.py`), the OAuth bridge
(`services/oauth.py`) and the access-token validation guard
(`utils/auth.py:get_current_user`).

Machine conventions:
- timestamps are natural numbers (seconds);
- the external user store is a list of `User` documents, the dashboard
  store a list of owner ids; `find_one`/`get`/`insert`/`save` are
  embedded as list operations;
- raising `HTTPException(code, detail)` is embedded as
  `ServiceError.http code detail`; a Python exception escaping the
  service uncaught is `ServiceError.uncaught name`;
- every stateful operation returns `Except ServiceError α × DB`,
  threading the store state explicitly (an error leaves the store as it
  was at the point of the raise, as in the source);
- the outcome of the outbound email capability is an explicit boolean
  parameter `email_ok` (the send succeeds iff it is true);
- fresh UUIDs (`uuid4()`) and the current time are explicit parameters.
-/

deriving instance DecidableEq for Except

namespace ProdDev

/-- HTTP-level failure raised by a service operation, or a raw Python
exception escaping the operation uncaught. -/
inductive ServiceError where
  | http (status_code : Nat) (detail : String)
  | uncaught (exc : String)
deriving Repr, DecidableEq

/-- Process-wide configuration loaded once at startup
(`utils/auth.py` module top: SECRET_KEY, ALGORITHM, ACCESS_TOKEN_MINUTES). -/
structure Config where
  secret_key : String
  algorithm : String
  access_token_minutes : Nat
deriving Repr, DecidableEq

/-- JWT payload as the code uses it: the data dict may carry a
`sub` and a `token_id` claim, plus the computed `exp` field. -/
structure Payload where
  sub : Option String
  token_id : Option String
  exp : Nat
deriving Repr, DecidableEq

/-- A signed token: payload plus signature (a token is validly signed
iff its `sig` equals the process secret key). -/
structure Token where
  payload : Payload
  sig : String
deriving Repr, DecidableEq

/-- Python truthiness of an optional string (`if not user_id: ...`):
`None` and the empty string are falsy. -/
def truthy : Option String → Bool
  | none => false
  | some s => !(s.data.isEmpty)

inductive JwtError where
  | invalidToken
  | expiredSignature
deriving Repr, DecidableEq

/-- `jwt.decode(token, SECRET_KEY, algorithms=[ALGORITHM])`: fails with
`InvalidTokenError` on a bad signature, `ExpiredSignatureError` when the
expiry has elapsed, otherwise returns the payload. -/
def jwt_decode (secret : String) (now : Nat) (t : Token) : Except JwtError Payload :=
  if t.sig == secret then
    if now < t.payload.exp then Except.ok t.payload
    else Except.error JwtError.expiredSignature
  else Except.error JwtError.invalidToken

/-- `generate_access_token` (utils/auth.py): copies the data dict, adds
`exp = now + (expires_delta or ACCESS_TOKEN_MINUTES minutes)`, signs with
the process secret.  Call sites in the source always pass
`data={"sub": str(user.id)}`, so `token_id` is `none` at every issuance. -/
def generate_access_token (cfg : Config) (now : Nat)
    (sub : Option String) (token_id : Option String)
    (expires_delta : Option Nat) : Token :=
  { payload :=
      { sub := sub
        token_id := token_id
        exp := now + (match expires_delta with
                      | some d => d
                      | none => cfg.access_token_minutes * 60) }
    sig := cfg.secret_key }

/-- `verify_access_token` (utils/auth.py): decodes the JWT; both
`InvalidTokenError` and `ExpiredSignatureError` collapse to the single
401 "Could not validate credentials." exception. -/
def verify_access_token (cfg : Config) (now : Nat) (t : Token) :
    Except ServiceError Payload :=
  match jwt_decode cfg.secret_key now t with
  | Except.error _ => Except.error (ServiceError.http 401 "Could not validate credentials.")
  | Except.ok p => Except.ok p

/-- Failure of passlib's hash identification. -/
inductive PasslibError where
  | unknownHash
deriving Repr, DecidableEq

/-- `hash_password` (utils/auth.py) = `pwd_context.hash(password)` with
`CryptContext(schemes=["bcrypt"])`: a bcrypt-formatted string from a
per-call random salt.  Modelled as the bcrypt prefix, the salt and the
password (the model only needs well-formedness and the match relation). -/
def hash_password (salt : String) (password : String) : String :=
  "$2b$12$" ++ salt ++ "$" ++ password

/-- Whether a stored string is identifiable as a bcrypt hash. -/
def is_bcrypt_hash (h : String) : Bool :=
  List.isPrefixOf ['$', '2', 'b', '$'] h.data

/-- The characters after the last `$` of a string (the password slot of
the modelled bcrypt format; the whole string when no `$` occurs). -/
def after_last_dollar (h : String) : String :=
  String.mk ((h.data.reverse.takeWhile (fun c => c != '$')).reverse)

/-- Models passlib `CryptContext(schemes=["bcrypt"]).verify`: per
passlib's documented contract it raises `UnknownHashError` when the hash
string cannot be identified as one of the configured schemes, and
otherwise returns whether the password matches the hash. -/
def pwd_context_verify (given : String) (hashed : String) : Except PasslibError Bool :=
  if is_bcrypt_hash hashed then
    Except.ok (after_last_dollar hashed == given)
  else Except.error PasslibError.unknownHash

/-- `verify_password` (utils/auth.py): a bare delegation to
`pwd_context.verify`, with no exception handling of its own. -/
def verify_password (given : String) (hashed : String) : Except PasslibError Bool :=
  pwd_context_verify given hashed

/-- `bleach.clean` with the default configuration: markup characters are
escaped; text free of `<`, `>`, `&` passes through unchanged. -/
def bleach_clean (s : String) : String :=
  String.mk (s.data.map (fun c =>
    if c == '<' then ['&', 'l', 't', ';']
    else if c == '>' then ['&', 'g', 't', ';']
    else if c == '&' then ['&', 'a', 'm', 'p', ';']
    else [c])).flatten

/-- Python `str.strip()`: whitespace removed from both ends. -/
def str_strip (s : String) : String :=
  String.mk (((s.data.dropWhile Char.isWhitespace).reverse.dropWhile
    Char.isWhitespace).reverse)

/-- Python `str.lower()` (modelled on the ASCII range). -/
def str_lower (s : String) : String := String.mk (s.data.map Char.toLower)

/-- Python `str.title()`: first alphabetic character of each word
upper-cased, the rest lower-cased. -/
def str_title (s : String) : String :=
  String.mk (s.data.foldl
    (fun (acc : List Char × Bool) c =>
      if c.isAlpha then
        (acc.1 ++ [if acc.2 then c.toLower else c.toUpper], true)
      else (acc.1 ++ [c], false))
    (([] : List Char), false)).1

/-- The email normalization every auth-service entry point applies:
`bleach.clean(email).strip().lower()`. -/
def normalize_email (s : String) : String :=
  str_lower (str_strip (bleach_clean s))

/-- One entry of `User.active_tokens` (a session): the dict
`{"active_token_id": uuid4, "expires_in": now+60min, "device": device}`. -/
structure ActiveToken where
  active_token_id : String
  expires_in : Nat
  device : String
deriving Repr, DecidableEq

/-- The `User` document (database/models/user.py), restricted to the
fields the auth subsystem reads or writes. -/
structure User where
  id : String
  full_name : String
  email : String
  password : String
  is_verified : Bool
  has_completed_onboarding : Bool
  active_tokens : List ActiveToken
  created_at : Nat
deriving Repr, DecidableEq

/-- The external stores: user documents and dashboard documents (a
dashboard is recorded by its owning user id). -/
structure DB where
  users : List User
  dashboards : List String
deriving Repr, DecidableEq

/-- `User.find_one(User.email == e)`. -/
def DB.findByEmail (db : DB) (e : String) : Option User :=
  db.users.find? (fun u => u.email == e)

/-- `User.get(user_id)`. -/
def DB.getById (db : DB) (i : String) : Option User :=
  db.users.find? (fun u => u.id == i)

/-- `user.insert()`. -/
def DB.insertUser (db : DB) (u : User) : DB :=
  { db with users := db.users ++ [u] }

/-- `user.save()`: whole-document rewrite of the user with this id. -/
def DB.saveUser (db : DB) (u : User) : DB :=
  { db with users := db.users.map (fun v => if v.id == u.id then u else v) }

/-- `dashboard.insert()` with `owner` linked to the user. -/
def DB.insertDashboard (db : DB) (owner : String) : DB :=
  { db with dashboards := db.dashboards ++ [owner] }

/-- Public projection returned by register/login/profile
(`UserResponse` in database/models/user.py). -/
structure UserResponse where
  id : String
  full_name : String
  email : String
  is_verified : Bool
  created_at : Nat
deriving Repr, DecidableEq

def User.toResponse (u : User) : UserResponse :=
  { id := u.id, full_name := u.full_name, email := u.email
    is_verified := u.is_verified, created_at := u.created_at }

/-- The session entry appended at every issuance site
(login / verify_email / oauth): a fresh uuid, an expiry 60 minutes out,
the device class. -/
def mkActiveToken (new_sid : String) (now : Nat) (device : String) : ActiveToken :=
  { active_token_id := new_sid, expires_in := now + 3600, device := device }

/-- `AuthService.register` (services/auth.py): sanitize and normalize
the inputs, fail 400 `"E-mail is already registered."` on a duplicate
normalized email, otherwise hash the password, insert the user
unverified, generate a verification token (`data={"sub": id}`) and
attempt delivery — a delivery failure is logged and swallowed, so
`email_ok` does not affect the outcome. -/
def register (db : DB) (new_id : String) (now : Nat) (salt : String)
    (email_ok : Bool) (full_name : String) (email : String)
    (password : String) : Except ServiceError UserResponse × DB :=
  let full_name := str_title (str_strip (bleach_clean full_name))
  let email := normalize_email email
  match db.findByEmail email with
  | some _ => (Except.error (ServiceError.http 400 "E-mail is already registered."), db)
  | none =>
    let user : User :=
      { id := new_id, full_name := full_name, email := email
        password := hash_password salt password
        is_verified := false, has_completed_onboarding := false
        active_tokens := [], created_at := now }
    let db1 := db.insertUser user
    -- verification token generated and emailed; failure swallowed
    let _ := email_ok
    (Except.ok user.toResponse, db1)

/-- `AuthService.verify_email` (services/auth.py): decode the token
(`verify_access_token` raises its own 401 HTTPException, which the
outer handler re-raises unchanged), require a truthy `sub`, resolve the
user (404 `"User not found."` if absent).  If already verified: issue an
access token (`data={"sub": id}` — no token_id), append a session, save,
and return the "already verified" message.  Otherwise: set
`is_verified`, insert exactly one dashboard, save, then issue the token,
append a session and save again. -/
def verify_email (cfg : Config) (db : DB) (now : Nat) (new_sid : String)
    (token : Token) (device : String) :
    Except ServiceError (String × Token) × DB :=
  match verify_access_token cfg now token with
  | Except.error e => (Except.error e, db)
  | Except.ok payload =>
    if !(truthy payload.sub) then
      (Except.error (ServiceError.http 400 "Invalid token payload."), db)
    else
      let user_id := payload.sub.getD ""
      match db.getById user_id with
      | none => (Except.error (ServiceError.http 404 "User not found."), db)
      | some user =>
        if user.is_verified then
          let access_token := generate_access_token cfg now (some user.id) none none
          let user1 := { user with
            active_tokens := user.active_tokens ++ [mkActiveToken new_sid now device] }
          (Except.ok ("Email already verified. You are now logged in.", access_token),
            db.saveUser user1)
        else
          let user1 := { user with is_verified := true }
          let db1 := (db.insertDashboard user.id).saveUser user1
          let access_token := generate_access_token cfg now (some user.id) none none
          let user2 := { user1 with
            active_tokens := user1.active_tokens ++ [mkActiveToken new_sid now device] }
          (Except.ok ("Email verification successful. You are now logged in.", access_token),
            db1.saveUser user2)

/-- `AuthService.resend_verification_link` (services/auth.py): normalize
the email, 404 `"No account found with this email."` if absent, a no-op
success message if already verified (no token issued, no mail sent);
otherwise issue a fresh token and attempt delivery, surfacing a 500 to
the caller when the send raises. -/
def resend_verification_link (cfg : Config) (db : DB) (now : Nat)
    (email_ok : Bool) (email : String) :
    Except ServiceError (String × Option Token × Bool) × DB :=
  let email := normalize_email email
  match db.findByEmail email with
  | none => (Except.error (ServiceError.http 404 "No account found with this email."), db)
  | some user =>
    if user.is_verified then
      (Except.ok ("Email is already verified.", none, false), db)
    else
      let tok := generate_access_token cfg now (some user.id) none none
      if email_ok then
        (Except.ok ("Verification email resent successfully.", some tok, true), db)
      else
        (Except.error (ServiceError.http 500 "Failed to send verification email. Please try again later."), db)

/-- `AuthService.login` (services/auth.py): normalize the email; the
same 401 `"Invalid email or password."` whether the lookup or the hash
check fails (a passlib exception from `verify_password` escapes
uncaught); for an unverified account, attempt a best-effort re-send
(failure swallowed — `email_ok` never changes the outcome) and raise 403
`"Email not verified. A new verification link has been sent."` WITHOUT
touching the session list; on success issue an access token
(`data={"sub": id}` — no token_id), append one session entry and save. -/
def login (cfg : Config) (db : DB) (now : Nat) (new_sid : String)
    (email_ok : Bool) (email : String) (password : String)
    (device : String) : Except ServiceError (UserResponse × Token) × DB :=
  let email := normalize_email email
  match db.findByEmail email with
  | none => (Except.error (ServiceError.http 401 "Invalid email or password."), db)
  | some user =>
    match verify_password password user.password with
    | Except.error _ => (Except.error (ServiceError.uncaught "UnknownHashError"), db)
    | Except.ok ok =>
      if !ok then
        (Except.error (ServiceError.http 401 "Invalid email or password."), db)
      else if !user.is_verified then
        let _ := email_ok
        (Except.error (ServiceError.http 403 "Email not verified. A new verification link has been sent."), db)
      else
        let access_token := generate_access_token cfg now (some user.id) none none
        let user1 := { user with
          active_tokens := user.active_tokens ++ [mkActiveToken new_sid now device] }
        (Except.ok (user1.toResponse, access_token), db.saveUser user1)

/-- `AuthService.logout` (services/auth.py): 401
`"User not authenticated."` if no user context; otherwise sets
`user.active_tokens = []` — clearing EVERY session of the user — and
saves.  The second positional argument of the Python method (named
`response`, receiving `token_id` from the route) is never consulted when
deciding which sessions to remove. -/
def logout (db : DB) (user : Option User) :
    Except ServiceError String × DB :=
  match user with
  | none => (Except.error (ServiceError.http 401 "User not authenticated."), db)
  | some u =>
    let u1 := { u with active_tokens := ([] : List ActiveToken) }
    (Except.ok "Logout successful.", db.saveUser u1)

/-- The `Authorization` header of a request as `get_current_user` reads
it: absent, not of the `Bearer ...` shape, or carrying a token. -/
inductive AuthHeader where
  | missing
  | notBearer
  | bearer (t : Token)
deriving Repr, DecidableEq

/-- `get_current_user` (utils/auth.py), the access-token validation
guard: require a Bearer header; decode the token; require BOTH a truthy
`sub` and a truthy `token_id` claim (else 401 `"Invalid token payload"`);
then `if not user or not any(t["active_token_id"] == token_id ...)` —
a missing user and a missing session collapse into the SAME 401
`"Invalid or expired token"`; otherwise return the user. -/
def get_current_user (cfg : Config) (db : DB) (now : Nat)
    (header : AuthHeader) : Except ServiceError User :=
  match header with
  | AuthHeader.missing =>
    Except.error (ServiceError.http 401 "Missing or invalid authorization header")
  | AuthHeader.notBearer =>
    Except.error (ServiceError.http 401 "Missing or invalid authorization header")
  | AuthHeader.bearer token =>
    match verify_access_token cfg now token with
    | Except.error e => Except.error e
    | Except.ok payload =>
      if !(truthy payload.sub) || !(truthy payload.token_id) then
        Except.error (ServiceError.http 401 "Invalid token payload")
      else
        let user_id := payload.sub.getD ""
        let token_id := payload.token_id.getD ""
        match db.getById user_id with
        | none => Except.error (ServiceError.http 401 "Invalid or expired token")
        | some user =>
          if user.active_tokens.any (fun t => t.active_token_id == token_id) then
            Except.ok user
          else
            Except.error (ServiceError.http 401 "Invalid or expired token")

/-- Outcome of the POST to Google's token endpoint, as the code
inspects it: non-ok response, ok response with the `access_token` field
missing/falsy, or ok with a token. -/
inductive GoogleTokenResponse where
  | failure
  | okNoToken
  | okToken (tok : String)
deriving Repr, DecidableEq

/-- The provider's user-info document, restricted to the fields read:
`email`, `sub`, `email_verified` (default `False`), `name`
(default `"Google User"`). -/
structure GoogleUserInfo where
  email : Option String
  sub : Option String
  email_verified : Bool
  name : Option String
deriving Repr, DecidableEq

/-- `OAuthService.login_with_google` (services/oauth.py): fail 401 on a
failed exchange or a missing provider access token; fail 400
`"Incomplete user info from Google"` unless both `email` and `sub` are
truthy.  Find-or-create by the provider email EXACTLY AS RETURNED (no
normalization is applied before `User.find_one(User.email == email)`):
if absent, create a user with the sentinel password `"oauth_google"`
and `is_verified` per the provider flag; if present, upgrade
`is_verified` to true when the provider says verified and the local
record is not (never the other direction).  Then append one session
entry, save, and issue an app token (`data={"sub": id}` — no token_id). -/
def login_with_google (cfg : Config) (db : DB) (now : Nat)
    (new_user_id : String) (new_sid : String)
    (token_resp : GoogleTokenResponse) (info : GoogleUserInfo)
    (device : String) : Except ServiceError (UserResponse × Token) × DB :=
  match token_resp with
  | GoogleTokenResponse.failure =>
    (Except.error (ServiceError.http 401 "Failed to obtain access token from Google."), db)
  | GoogleTokenResponse.okNoToken =>
    (Except.error (ServiceError.http 401 "Access token missing from Google response"), db)
  | GoogleTokenResponse.okToken _ =>
    if !(truthy info.email) || !(truthy info.sub) then
      (Except.error (ServiceError.http 400 "Incomplete user info from Google"), db)
    else
      let email := info.email.getD ""
      let full_name := info.name.getD "Google User"
      match db.findByEmail email with
      | none =>
        let user : User :=
          { id := new_user_id, full_name := full_name, email := email
            password := "oauth_google"
            is_verified := info.email_verified
            has_completed_onboarding := false
            active_tokens := [], created_at := now }
        let db1 := db.insertUser user
        let user1 := { user with
          active_tokens := user.active_tokens ++ [mkActiveToken new_sid now device] }
        let db2 := db1.saveUser user1
        let app_token := generate_access_token cfg now (some user.id) none none
        (Except.ok (user1.toResponse, app_token), db2)
      | some user =>
        let user0 :=
          if !user.is_verified && info.email_verified then
            { user with is_verified := true }
          else user
        let user1 := { user0 with
          active_tokens := user0.active_tokens ++ [mkActiveToken new_sid now device] }
        let db1 := db.saveUser user1
        let app_token := generate_access_token cfg now (some user.id) none none
        (Except.ok (user1.toResponse, app_token), db1)

/-! ## Helper lemmas about the store -/

theorem User.id_of_getById {db : DB} {i : String} {u : User}
    (h : db.getById i = some u) : u.id = i := by
  have := List.find?_some h
  simpa using this

theorem DB.dashboards_saveUser (db : DB) (u : User) :
    (db.saveUser u).dashboards = db.dashboards := rfl

theorem DB.getById_insertDashboard (db : DB) (o : String) (i : String) :
    (db.insertDashboard o).getById i = db.getById i := rfl

theorem DB.getById_saveUser {db : DB} {i : String} {u : User} (usave : User)
    (h : db.getById i = some u) (hid : usave.id = i) :
    (db.saveUser usave).getById i = some usave := by
  have hu : u.id = i := User.id_of_getById h
  unfold DB.getById DB.saveUser at *
  rw [List.find?_map]
  have hpred :
      ((fun w : User => w.id == i) ∘ (fun v => if v.id == usave.id then usave else v))
        = (fun v : User => v.id == i) := by
    funext v
    by_cases hv : v.id = usave.id
    · simp [Function.comp, hv, hid]
    · simp [Function.comp, hv]
  rw [hpred, h]
  simp [hu, hid]

theorem DB.users_saveUser_insert_fresh {db : DB} {u : User} (usave : User)
    (hfresh : db.getById u.id = none) (hid : usave.id = u.id) :
    ((db.insertUser u).saveUser usave).users = db.users ++ [usave] := by
  unfold DB.getById at hfresh
  rw [List.find?_eq_none] at hfresh
  unfold DB.insertUser DB.saveUser
  simp only [List.map_append, List.map_cons, List.map_nil]
  have hu : (if u.id == usave.id then usave else u) = usave := by
    simp [hid]
  have hothers : db.users.map (fun v => if v.id == usave.id then usave else v)
      = db.users := by
    have h1 : db.users.map (fun v => if v.id == usave.id then usave else v)
        = db.users.map (fun v => v) :=
      List.map_congr_left (fun a ha => by
        have hne : ¬((a.id == u.id) = true) := hfresh a ha
        simp only [beq_iff_eq] at hne
        simp [hid, hne])
    rw [h1, List.map_id']
  rw [hu, hothers]

/-- Python truthiness of a nonempty string. -/
theorem truthy_of_ne_empty {s : String} (h : s ≠ "") : truthy (some s) = true := by
  unfold truthy
  cases hs : s.data with
  | nil =>
    exact absurd (String.ext (hs.trans rfl)) h
  | cons c cs => simp [hs]

/-! ## Concrete fixtures -/

/-- A concrete startup configuration. -/
def fixCfg : Config := ⟨"sek", "HS256", 60⟩

/-- A verified user with no live sessions, password hash for
"secret123". -/
def janeVerified : User :=
  ⟨"uid1", "Jane Doe", "jane@example.com", hash_password "s4lt" "secret123",
   true, false, [], 0⟩

/-- The same user still pending verification. -/
def janePending : User :=
  ⟨"uid1", "Jane Doe", "jane@example.com", hash_password "s4lt" "secret123",
   false, false, [], 0⟩

/-- The same user with one live session `s1`. -/
def janeOneSession : User :=
  ⟨"uid1", "Jane Doe", "jane@example.com", hash_password "s4lt" "secret123",
   true, false, [⟨"s1", 3700, "desktop"⟩], 0⟩

/-- The same user with two live sessions `s1`, `s2` on two devices. -/
def janeTwoSessions : User :=
  ⟨"uid1", "Jane Doe", "jane@example.com", hash_password "s4lt" "secret123",
   true, false, [⟨"s1", 3700, "desktop"⟩, ⟨"s2", 3700, "mobile"⟩], 0⟩

/-! ## Claims -/

/-- C1: the claim says every access token issued by a successful login,
verifyEmail or OAuth login embeds both the subject and the session id of
the Session entry appended at issuance, and passes the validation guard
while that entry is live.  The code contradicts itself here: all three
issuance sites sign `{"sub": user_id}` only (the `token_id` claim is
absent — conjuncts 1 to 3 exhibit the issued tokens), yet
`get_current_user` requires a truthy `token_id`, so the freshly issued
login token is rejected with 401 "Invalid token payload" even though the
session entry appended at issuance is still in the registry (conjuncts 4
and 5). -/
theorem C1_issued_tokens_lack_session_id :
    (login fixCfg ⟨[janeVerified], []⟩ 100 "sid1" true "jane@example.com"
        "secret123" "desktop").1
      = Except.ok (⟨"uid1", "Jane Doe", "jane@example.com", true, 0⟩,
          ⟨⟨some "uid1", none, 3700⟩, "sek"⟩)
  ∧ (verify_email fixCfg ⟨[janePending], []⟩ 100 "sidV"
        ⟨⟨some "uid1", none, 900⟩, "sek"⟩ "desktop").1
      = Except.ok ("Email verification successful. You are now logged in.",
          ⟨⟨some "uid1", none, 3700⟩, "sek"⟩)
  ∧ (login_with_google fixCfg ⟨[], []⟩ 100 "uid9" "sid9"
        (GoogleTokenResponse.okToken "gtok")
        ⟨some "g@x.com", some "gsub", true, some "G User"⟩ "desktop").1
      = Except.ok (⟨"uid9", "G User", "g@x.com", true, 100⟩,
          ⟨⟨some "uid9", none, 3700⟩, "sek"⟩)
  ∧ ((login fixCfg ⟨[janeVerified], []⟩ 100 "sid1" true "jane@example.com"
        "secret123" "desktop").2.getById "uid1").map
          (fun u => u.active_tokens.map ActiveToken.active_token_id)
      = some ["sid1"]
  ∧ get_current_user fixCfg
        (login fixCfg ⟨[janeVerified], []⟩ 100 "sid1" true "jane@example.com"
          "secret123" "desktop").2
        101 (AuthHeader.bearer ⟨⟨some "uid1", none, 3700⟩, "sek"⟩)
      = Except.error (ServiceError.http 401 "Invalid token payload") := by
  refine ⟨by decide, by decide, by decide, by decide, by decide⟩

/-- C2 counterexample: the claim says the guard fails with `UserNotFound`
when the subject resolves to no user, and with a DISTINCT `SessionRevoked`
when no session matches.  At these concrete inputs the code produces the
IDENTICAL error — 401 "Invalid or expired token" — for a token whose
subject matches no user (first conjunct) and for a token whose session id
is absent from the live user's registry (second conjunct): the two
failure modes are not distinguished, and the missing-user case is not a
404 "User not found." error (third conjunct). -/
theorem C2_guard_errors_not_distinct :
    get_current_user fixCfg ⟨[], []⟩ 100
        (AuthHeader.bearer ⟨⟨some "uid1", some "s2", 900⟩, "sek"⟩)
      = Except.error (ServiceError.http 401 "Invalid or expired token")
  ∧ get_current_user fixCfg ⟨[janeOneSession], []⟩ 100
        (AuthHeader.bearer ⟨⟨some "uid1", some "s2", 900⟩, "sek"⟩)
      = Except.error (ServiceError.http 401 "Invalid or expired token")
  ∧ get_current_user fixCfg ⟨[], []⟩ 100
        (AuthHeader.bearer ⟨⟨some "uid1", some "s2", 900⟩, "sek"⟩)
      ≠ Except.error (ServiceError.http 404 "User not found.") := by
  refine ⟨by decide, by decide, by decide⟩

/-- C2 amended: for every cryptographically valid token carrying truthy
`sub` and `token_id` claims, the guard fails with the single combined
401 "Invalid or expired token" error both when the subject resolves to
no user and when no live session entry matches the token's session id
(the code does not distinguish the two, and has no separate UserNotFound
outcome); only when a matching session entry exists does it return the
user.  In particular a token whose session id has been removed from the
registry fails with that combined error while signature and expiry are
still valid. -/
theorem C2_guard_collapsed_error_behavior
    (cfg : Config) (db : DB) (now : Nat) (tok : Token) (uid tid : String)
    (hsig : tok.sig = cfg.secret_key) (hexp : now < tok.payload.exp)
    (hsub : tok.payload.sub = some uid) (htid : tok.payload.token_id = some tid)
    (hu : uid ≠ "") (ht : tid ≠ "") :
    (db.getById uid = none →
      get_current_user cfg db now (AuthHeader.bearer tok)
        = Except.error (ServiceError.http 401 "Invalid or expired token"))
  ∧ (∀ user, db.getById uid = some user →
      user.active_tokens.any (fun t => t.active_token_id == tid) = false →
      get_current_user cfg db now (AuthHeader.bearer tok)
        = Except.error (ServiceError.http 401 "Invalid or expired token"))
  ∧ (∀ user, db.getById uid = some user →
      user.active_tokens.any (fun t => t.active_token_id == tid) = true →
      get_current_user cfg db now (AuthHeader.bearer tok) = Except.ok user) := by
  refine ⟨?_, ?_, ?_⟩
  · intro hnone
    simp [get_current_user, verify_access_token, jwt_decode, hsig, hexp, hsub, htid,
      truthy_of_ne_empty hu, truthy_of_ne_empty ht, hnone]
  · intro user huser hany
    simp [get_current_user, verify_access_token, jwt_decode, hsig, hexp, hsub, htid,
      truthy_of_ne_empty hu, truthy_of_ne_empty ht, huser, hany]
  · intro user huser hany
    simp [get_current_user, verify_access_token, jwt_decode, hsig, hexp, hsub, htid,
      truthy_of_ne_empty hu, truthy_of_ne_empty ht, huser, hany]

/-- Witness for C2's amended theorem: at a concrete state holding the
session `s1`, the guard accepts the matching token. -/
theorem C2_guard_collapsed_error_behavior_witness :
    get_current_user fixCfg ⟨[janeOneSession], []⟩ 100
        (AuthHeader.bearer ⟨⟨some "uid1", some "s1", 900⟩, "sek"⟩)
      = Except.ok janeOneSession :=
  (C2_guard_collapsed_error_behavior fixCfg ⟨[janeOneSession], []⟩ 100
      ⟨⟨some "uid1", some "s1", 900⟩, "sek"⟩ "uid1" "s1"
      rfl (by decide) rfl rfl (by decide) (by decide)).2.2
    janeOneSession (by decide) (by decide)

/-- C3: the claim says `logout(user, sessionId)` with a specific session
id removes only that Session entry and leaves every other session valid.
The code has no such path: `AuthService.logout` unconditionally sets
`active_tokens = []` (the route even passes the extracted `token_id`
into the method's `response` parameter).  At a user holding sessions
`s1` and `s2`, a logout naming `s1` clears BOTH entries (conjunct 2),
and a token bound to the other session `s2`, which passed the registry
check before the call (conjunct 4), fails it afterwards (conjunct 3). -/
theorem C3_logout_clears_every_session :
    (logout ⟨[janeTwoSessions], []⟩ (some janeTwoSessions)).1
      = Except.ok "Logout successful."
  ∧ ((logout ⟨[janeTwoSessions], []⟩ (some janeTwoSessions)).2.getById "uid1").map
        User.active_tokens = some []
  ∧ get_current_user fixCfg (logout ⟨[janeTwoSessions], []⟩ (some janeTwoSessions)).2 100
        (AuthHeader.bearer ⟨⟨some "uid1", some "s2", 900⟩, "sek"⟩)
      = Except.error (ServiceError.http 401 "Invalid or expired token")
  ∧ get_current_user fixCfg ⟨[janeTwoSessions], []⟩ 100
        (AuthHeader.bearer ⟨⟨some "uid1", some "s2", 900⟩, "sek"⟩)
      = Except.ok janeTwoSessions := by
  refine ⟨by decide, by decide, by decide, by decide⟩

/-- Symbolic run of `verify_email` through the pending-verification
branch: flag flipped, one dashboard inserted, one session appended. -/
theorem verify_email_pending_run
    (cfg : Config) (db : DB) (now : Nat) (sid : String) (tok : Token)
    (dev : String) (uid : String) (user : User)
    (hsig : tok.sig = cfg.secret_key) (hexp : now < tok.payload.exp)
    (hsub : tok.payload.sub = some uid) (hne : uid ≠ "")
    (hget : db.getById uid = some user) (hver : user.is_verified = false) :
    verify_email cfg db now sid tok dev
      = (Except.ok ("Email verification successful. You are now logged in.",
            generate_access_token cfg now (some user.id) none none),
         ((db.insertDashboard user.id).saveUser { user with is_verified := true }).saveUser
           { user with
             is_verified := true
             active_tokens := user.active_tokens ++ [mkActiveToken sid now dev] }) := by
  simp [verify_email, verify_access_token, jwt_decode, hsig, hexp, hsub,
    truthy_of_ne_empty hne, hget, hver]

/-- Symbolic run of `verify_email` through the already-verified branch:
no dashboard inserted, one session appended. -/
theorem verify_email_verified_run
    (cfg : Config) (db : DB) (now : Nat) (sid : String) (tok : Token)
    (dev : String) (uid : String) (user : User)
    (hsig : tok.sig = cfg.secret_key) (hexp : now < tok.payload.exp)
    (hsub : tok.payload.sub = some uid) (hne : uid ≠ "")
    (hget : db.getById uid = some user) (hver : user.is_verified = true) :
    verify_email cfg db now sid tok dev
      = (Except.ok ("Email already verified. You are now logged in.",
            generate_access_token cfg now (some user.id) none none),
         db.saveUser { user with
           active_tokens := user.active_tokens ++ [mkActiveToken sid now dev] }) := by
  simp [verify_email, verify_access_token, jwt_decode, hsig, hexp, hsub,
    truthy_of_ne_empty hne, hget, hver]

/-- C4: for a user still pending verification, presenting a valid
verification token flips `is_verified` from false to true, creates
exactly one Dashboard record (conjuncts 1 to 3), and replaying the same
still-valid token afterwards takes the already-verified branch, which
logs the user in with a fresh session but creates no second Dashboard
(conjuncts 4 and 5: the dashboard store is unchanged by the replay). -/
theorem C4_verify_email_exactly_once_then_idempotent
    (cfg : Config) (db : DB) (now now2 : Nat) (sid1 sid2 : String)
    (tok : Token) (dev1 dev2 : String) (uid : String) (user : User)
    (hsig : tok.sig = cfg.secret_key)
    (hexp : now < tok.payload.exp) (hexp2 : now2 < tok.payload.exp)
    (hsub : tok.payload.sub = some uid) (hne : uid ≠ "")
    (hget : db.getById uid = some user) (hver : user.is_verified = false) :
    (verify_email cfg db now sid1 tok dev1).1
        = Except.ok ("Email verification successful. You are now logged in.",
            generate_access_token cfg now (some user.id) none none)
  ∧ (verify_email cfg db now sid1 tok dev1).2.dashboards = db.dashboards ++ [user.id]
  ∧ (verify_email cfg db now sid1 tok dev1).2.getById uid
        = some { user with
                 is_verified := true
                 active_tokens := user.active_tokens ++ [mkActiveToken sid1 now dev1] }
  ∧ (verify_email cfg (verify_email cfg db now sid1 tok dev1).2 now2 sid2 tok dev2).1
        = Except.ok ("Email already verified. You are now logged in.",
            generate_access_token cfg now2 (some user.id) none none)
  ∧ (verify_email cfg (verify_email cfg db now sid1 tok dev1).2 now2 sid2 tok dev2).2.dashboards
        = db.dashboards ++ [user.id]
  ∧ (verify_email cfg (verify_email cfg db now sid1 tok dev1).2 now2 sid2 tok dev2).2.getById uid
        = some { user with
            is_verified := true
            active_tokens := user.active_tokens ++ [mkActiveToken sid1 now dev1]
              ++ [mkActiveToken sid2 now2 dev2] } := by
  have hid : user.id = uid := User.id_of_getById hget
  have h1 := verify_email_pending_run cfg db now sid1 tok dev1 uid user
    hsig hexp hsub hne hget hver
  have g1 : (db.insertDashboard user.id).getById uid = some user := hget
  have g2 : ((db.insertDashboard user.id).saveUser
        { user with is_verified := true }).getById uid
      = some { user with is_verified := true } :=
    DB.getById_saveUser { user with is_verified := true } g1 (by simp [hid])
  have g3 : (((db.insertDashboard user.id).saveUser
        { user with is_verified := true }).saveUser
        { user with
          is_verified := true
          active_tokens := user.active_tokens ++ [mkActiveToken sid1 now dev1] }).getById uid
      = some { user with
          is_verified := true
          active_tokens := user.active_tokens ++ [mkActiveToken sid1 now dev1] } :=
    DB.getById_saveUser _ g2 (by simp [hid])
  have hget2 : (verify_email cfg db now sid1 tok dev1).2.getById uid
      = some { user with
          is_verified := true
          active_tokens := user.active_tokens ++ [mkActiveToken sid1 now dev1] } := by
    rw [h1]; exact g3
  have h2 := verify_email_verified_run cfg (verify_email cfg db now sid1 tok dev1).2
    now2 sid2 tok dev2 uid
    { user with
      is_verified := true
      active_tokens := user.active_tokens ++ [mkActiveToken sid1 now dev1] }
    hsig hexp2 hsub hne hget2 rfl
  refine ⟨?_, ?_, ?_, ?_, ?_, ?_⟩
  · rw [h1]
  · rw [h1]; simp [DB.saveUser, DB.insertDashboard]
  · exact hget2
  · rw [h2]
  · rw [h2, DB.dashboards_saveUser, h1]
    simp [DB.saveUser, DB.insertDashboard]
  · rw [h2]
    exact DB.getById_saveUser _ hget2 (by simp [hid])

/-- Witness for C4: the concrete pending user gains exactly one
dashboard on first verification, and a replay of the token leaves the
dashboard store unchanged while reporting the already-verified login. -/
theorem C4_verify_email_exactly_once_then_idempotent_witness :
    (verify_email fixCfg ⟨[janePending], []⟩ 100 "v1"
        ⟨⟨some "uid1", none, 900⟩, "sek"⟩ "desktop").2.dashboards = ["uid1"]
  ∧ (verify_email fixCfg
        (verify_email fixCfg ⟨[janePending], []⟩ 100 "v1"
          ⟨⟨some "uid1", none, 900⟩, "sek"⟩ "desktop").2 200 "v2"
        ⟨⟨some "uid1", none, 900⟩, "sek"⟩ "mobile").1
      = Except.ok ("Email already verified. You are now logged in.",
          generate_access_token fixCfg 200 (some "uid1") none none)
  ∧ (verify_email fixCfg
        (verify_email fixCfg ⟨[janePending], []⟩ 100 "v1"
          ⟨⟨some "uid1", none, 900⟩, "sek"⟩ "desktop").2 200 "v2"
        ⟨⟨some "uid1", none, 900⟩, "sek"⟩ "mobile").2.dashboards = ["uid1"] := by
  have h := C4_verify_email_exactly_once_then_idempotent fixCfg ⟨[janePending], []⟩
    100 200 "v1" "v2" ⟨⟨some "uid1", none, 900⟩, "sek"⟩ "desktop" "mobile"
    "uid1" janePending rfl (by decide) (by decide) rfl (by decide) (by decide) rfl
  exact ⟨by simpa using h.2.1, by simpa using h.2.2.2.1, by simpa using h.2.2.2.2.1⟩

/-- C5: for every registered but unverified user, a login with a
password that verifies against the stored hash fails with the 403
"Email not verified" error and returns the store UNCHANGED (no session
appended), and this holds for both outcomes of the best-effort
verification-email re-send (`email_ok` is universally quantified). -/
theorem C5_login_unverified_fails_and_appends_no_session
    (cfg : Config) (db : DB) (now : Nat) (sid : String) (email_ok : Bool)
    (email password device : String) (user : User)
    (hfind : db.findByEmail (normalize_email email) = some user)
    (hpw : verify_password password user.password = Except.ok true)
    (hver : user.is_verified = false) :
    login cfg db now sid email_ok email password device
      = (Except.error (ServiceError.http 403
          "Email not verified. A new verification link has been sent."), db) := by
  simp [login, hfind, hpw, hver]

/-- Witness for C5: the concrete pending user with the correct password
"secret123", with the re-send failing (`email_ok = false`), still gets
exactly the 403 error and an unchanged store. -/
theorem C5_login_unverified_fails_and_appends_no_session_witness :
    login fixCfg ⟨[janePending], []⟩ 100 "sidX" false " Jane@Example.com "
        "secret123" "desktop"
      = (Except.error (ServiceError.http 403
          "Email not verified. A new verification link has been sent."),
         ⟨[janePending], []⟩) :=
  C5_login_unverified_fails_and_appends_no_session fixCfg ⟨[janePending], []⟩
    100 "sidX" false " Jane@Example.com " "secret123" "desktop" janePending
    (by decide) (by decide) (by decide)

/-- C6 counterexample: the claim says the OAuth login is keyed on the
NORMALIZED provider email.  With an existing account stored under the
normalized email "a@b.com" (which IS what `normalize_email` produces
from the provider's "A@B.com" — conjuncts 1 and 2), a Google login whose
provider reports "A@B.com" does not find that account: the code looks up
the raw provider string and creates a second user (conjunct 3). -/
theorem C6_oauth_email_not_normalized :
    normalize_email "A@B.com" = "a@b.com"
  ∧ DB.findByEmail ⟨[⟨"uidA", "Ann B", "a@b.com", "oauth_google", true, false, [], 0⟩], []⟩
        (normalize_email "A@B.com")
      = some ⟨"uidA", "Ann B", "a@b.com", "oauth_google", true, false, [], 0⟩
  ∧ ((login_with_google fixCfg
        ⟨[⟨"uidA", "Ann B", "a@b.com", "oauth_google", true, false, [], 0⟩], []⟩
        100 "uidNew" "sidN" (GoogleTokenResponse.okToken "g")
        ⟨some "A@B.com", some "gsub", true, some "Ann B"⟩ "desktop").2.users.length = 2) := by
  refine ⟨by decide, by decide, by decide⟩

/-- Symbolic run of `login_with_google` through the create branch. -/
theorem login_with_google_create_run
    (cfg : Config) (db : DB) (now : Nat) (nuid sid gtok : String)
    (info : GoogleUserInfo) (dev : String) (em su : String)
    (hemail : info.email = some em) (hsubj : info.sub = some su)
    (hne : em ≠ "") (hns : su ≠ "")
    (hnone : db.findByEmail em = none) :
    login_with_google cfg db now nuid sid (GoogleTokenResponse.okToken gtok) info dev
      = (Except.ok (User.toResponse
            { id := nuid, full_name := info.name.getD "Google User", email := em
              password := "oauth_google", is_verified := info.email_verified
              has_completed_onboarding := false
              active_tokens := [mkActiveToken sid now dev], created_at := now },
           generate_access_token cfg now (some nuid) none none),
         (db.insertUser
            { id := nuid, full_name := info.name.getD "Google User", email := em
              password := "oauth_google", is_verified := info.email_verified
              has_completed_onboarding := false
              active_tokens := [], created_at := now }).saveUser
            { id := nuid, full_name := info.name.getD "Google User", email := em
              password := "oauth_google", is_verified := info.email_verified
              has_completed_onboarding := false
              active_tokens := [mkActiveToken sid now dev], created_at := now }) := by
  simp [login_with_google, hemail, hsubj, truthy_of_ne_empty hne,
    truthy_of_ne_empty hns, hnone]

/-- C6 amended: `loginWithGoogle` performs find-or-create keyed on the
provider email EXACTLY AS RETURNED (no normalization): if no user has
that raw email, it creates one whose password is the sentinel
"oauth_google" — on which password verification always raises rather
than succeeding, so the account is not password-loginable — and whose
only session is the one from this login; if a user exists, `is_verified`
becomes the disjunction of the local flag and the provider flag (a
one-way upgrade, never a downgrade), and in every successful call
exactly one session entry is appended, as in password login. -/
theorem C6_oauth_find_or_create_on_raw_email
    (cfg : Config) (db : DB) (now : Nat) (nuid sid gtok : String)
    (info : GoogleUserInfo) (dev : String) (em su : String)
    (hemail : info.email = some em) (hsubj : info.sub = some su)
    (hne : em ≠ "") (hns : su ≠ "") :
    (db.findByEmail em = none → db.getById nuid = none →
      (login_with_google cfg db now nuid sid (GoogleTokenResponse.okToken gtok) info dev).1
          = Except.ok
              (User.toResponse
                { id := nuid, full_name := info.name.getD "Google User", email := em
                  password := "oauth_google", is_verified := info.email_verified
                  has_completed_onboarding := false
                  active_tokens := [mkActiveToken sid now dev], created_at := now },
               generate_access_token cfg now (some nuid) none none)
        ∧ (login_with_google cfg db now nuid sid (GoogleTokenResponse.okToken gtok) info dev).2.users
          = db.users ++
              [{ id := nuid, full_name := info.name.getD "Google User", email := em
                 password := "oauth_google", is_verified := info.email_verified
                 has_completed_onboarding := false
                 active_tokens := [mkActiveToken sid now dev], created_at := now }])
  ∧ (∀ user, db.findByEmail em = some user →
      ∃ upd,
        login_with_google cfg db now nuid sid (GoogleTokenResponse.okToken gtok) info dev
            = (Except.ok (upd.toResponse,
                generate_access_token cfg now (some user.id) none none),
               db.saveUser upd)
        ∧ upd.id = user.id ∧ upd.email = user.email ∧ upd.password = user.password
        ∧ upd.is_verified = (user.is_verified || info.email_verified)
        ∧ upd.active_tokens = user.active_tokens ++ [mkActiveToken sid now dev])
  ∧ (∀ p, verify_password p "oauth_google" = Except.error PasslibError.unknownHash) := by
  refine ⟨?_, ?_, ?_⟩
  · intro hnone hfresh
    have hrun := login_with_google_create_run cfg db now nuid sid gtok info dev em su
      hemail hsubj hne hns hnone
    constructor
    · rw [hrun]
    · rw [hrun]
      exact DB.users_saveUser_insert_fresh _ hfresh rfl
  · intro user hfind
    by_cases hv : user.is_verified
    · refine ⟨{ user with
          active_tokens := user.active_tokens ++ [mkActiveToken sid now dev] },
        ?_, rfl, rfl, rfl, by simp [hv], rfl⟩
      simp [login_with_google, hemail, hsubj, truthy_of_ne_empty hne,
        truthy_of_ne_empty hns, hfind, hv]
    · by_cases hev : info.email_verified
      · refine ⟨{ user with
            is_verified := true
            active_tokens := user.active_tokens ++ [mkActiveToken sid now dev] },
          ?_, rfl, rfl, rfl, by simp [hv, hev], rfl⟩
        simp [login_with_google, hemail, hsubj, truthy_of_ne_empty hne,
          truthy_of_ne_empty hns, hfind, hv, hev]
      · refine ⟨{ user with
            active_tokens := user.active_tokens ++ [mkActiveToken sid now dev] },
          ?_, rfl, rfl, rfl, by simp [hv, hev], rfl⟩
        simp [login_with_google, hemail, hsubj, truthy_of_ne_empty hne,
          truthy_of_ne_empty hns, hfind, hv, hev]
  · intro p
    simp [verify_password, pwd_context_verify,
      show is_bcrypt_hash "oauth_google" = false from by decide]

/-- Witness for C6's amended theorem: a first Google login for a fresh
email creates the sentinel-password user with exactly one session. -/
theorem C6_oauth_find_or_create_on_raw_email_witness :
    (login_with_google fixCfg ⟨[], []⟩ 100 "uid9" "sid9"
        (GoogleTokenResponse.okToken "g")
        ⟨some "g@x.com", some "gsub", true, some "G User"⟩ "desktop").2.users
      = [{ id := "uid9", full_name := "G User", email := "g@x.com"
           password := "oauth_google", is_verified := true
           has_completed_onboarding := false
           active_tokens := [mkActiveToken "sid9" 100 "desktop"], created_at := 100 }] := by
  have h := (C6_oauth_find_or_create_on_raw_email fixCfg ⟨[], []⟩ 100 "uid9" "sid9" "g"
    ⟨some "g@x.com", some "gsub", true, some "G User"⟩ "desktop" "g@x.com" "gsub"
    rfl rfl (by decide) (by decide)).1 (by decide) (by decide)
  simpa using h.2

/-- C7: whenever two register calls carry emails that agree after the
source normalization (bleach-clean, strip, lower-case — on the claim's
ASCII examples this coincides with trim plus casefold), the second call
fails with the 400 duplicate-email error and leaves the store exactly as
the first call left it (no new user), regardless of the other inputs. -/
theorem C7_register_duplicate_normalized_email
    (db : DB) (id1 id2 : String) (now1 now2 : Nat) (salt1 salt2 : String)
    (ok1 ok2 : Bool) (n1 p1 n2 p2 e1 e2 : String)
    (hnorm : normalize_email e1 = normalize_email e2) :
    (register (register db id1 now1 salt1 ok1 n1 e1 p1).2 id2 now2 salt2 ok2 n2 e2 p2).1
        = Except.error (ServiceError.http 400 "E-mail is already registered.")
  ∧ (register (register db id1 now1 salt1 ok1 n1 e1 p1).2 id2 now2 salt2 ok2 n2 e2 p2).2
        = (register db id1 now1 salt1 ok1 n1 e1 p1).2 := by
  cases hfind : db.findByEmail (normalize_email e1) with
  | some u =>
    have h2 : db.findByEmail (normalize_email e2) = some u := by
      rw [← hnorm]; exact hfind
    constructor <;> simp [register, hfind, h2]
  | none =>
    have hrun1 : (register db id1 now1 salt1 ok1 n1 e1 p1).2
        = db.insertUser
            ⟨id1, str_title (str_strip (bleach_clean n1)), normalize_email e1,
             hash_password salt1 p1, false, false, [], now1⟩ := by
      simp [register, hfind]
    have h2 : (db.insertUser
          ⟨id1, str_title (str_strip (bleach_clean n1)), normalize_email e1,
           hash_password salt1 p1, false, false, [], now1⟩).findByEmail
          (normalize_email e2)
        = some ⟨id1, str_title (str_strip (bleach_clean n1)), normalize_email e1,
            hash_password salt1 p1, false, false, [], now1⟩ := by
      unfold DB.findByEmail DB.insertUser at *
      rw [List.find?_append]
      have hnone : db.users.find?
          (fun u => u.email == normalize_email e2) = none := by
        rw [← hnorm]; exact hfind
      rw [hnone]
      simp [List.find?, hnorm]
    rw [hrun1]
    constructor <;> simp [register, h2]

/-- Witness for C7: registering "a@b.com" right after " A@B.com " fails
with the duplicate-email error even though the raw strings differ in
case and surrounding whitespace. -/
theorem C7_register_duplicate_normalized_email_witness :
    (register (register ⟨[], []⟩ "id1" 0 "s1" true "Jane Doe" " A@B.com " "pw1").2
        "id2" 1 "s2" true "John Doe" "a@b.com" "pw2").1
      = Except.error (ServiceError.http 400 "E-mail is already registered.") :=
  (C7_register_duplicate_normalized_email ⟨[], []⟩ "id1" "id2" 0 1 "s1" "s2"
    true true "Jane Doe" "pw1" "John Doe" "pw2" " A@B.com " "a@b.com"
    (by decide)).1

/-- C8: `resendVerification` normalizes the email and (1) fails 404 when
no user matches; (2) short-circuits with the no-op success message for
an already-verified user, issuing no token and attempting no send;
(3) for an unverified user with working delivery, issues a fresh token
and reports success; (4) for an unverified user with failing delivery,
surfaces the 500 delivery error to the caller; by contrast (5) register
still succeeds when its verification delivery fails. -/
theorem C8_resend_verification_policy (cfg : Config) (now : Nat) :
    (∀ db email_ok email,
      DB.findByEmail db (normalize_email email) = none →
      resend_verification_link cfg db now email_ok email
        = (Except.error (ServiceError.http 404 "No account found with this email."), db))
  ∧ (∀ db email_ok email user,
      DB.findByEmail db (normalize_email email) = some user →
      user.is_verified = true →
      resend_verification_link cfg db now email_ok email
        = (Except.ok ("Email is already verified.", none, false), db))
  ∧ (∀ db email user,
      DB.findByEmail db (normalize_email email) = some user →
      user.is_verified = false →
      resend_verification_link cfg db now true email
        = (Except.ok ("Verification email resent successfully.",
            some (generate_access_token cfg now (some user.id) none none), true), db))
  ∧ (∀ db email user,
      DB.findByEmail db (normalize_email email) = some user →
      user.is_verified = false →
      resend_verification_link cfg db now false email
        = (Except.error (ServiceError.http 500
            "Failed to send verification email. Please try again later."), db))
  ∧ (∀ db id salt fn email pw,
      DB.findByEmail db (normalize_email email) = none →
      ∃ r, (register db id now salt false fn email pw).1 = Except.ok r) := by
  refine ⟨?_, ?_, ?_, ?_, ?_⟩
  · intro db email_ok email hnone
    simp [resend_verification_link, hnone]
  · intro db email_ok email user hfind hver
    simp [resend_verification_link, hfind, hver]
  · intro db email user hfind hver
    simp [resend_verification_link, hfind, hver]
  · intro db email user hfind hver
    simp [resend_verification_link, hfind, hver]
  · intro db id salt fn email pw hnone
    refine ⟨User.toResponse
      ⟨id, str_title (str_strip (bleach_clean fn)), normalize_email email,
       hash_password salt pw, false, false, [], now⟩, ?_⟩
    simp [register, hnone]

/-- Witness for C8: for the concrete pending user, a failing delivery
surfaces the 500 error from resend, while a register call whose delivery
also fails still succeeds. -/
theorem C8_resend_verification_policy_witness :
    resend_verification_link fixCfg ⟨[janePending], []⟩ 100 false "jane@example.com"
      = (Except.error (ServiceError.http 500
          "Failed to send verification email. Please try again later."),
         ⟨[janePending], []⟩)
  ∧ ∃ r, (register ⟨[], []⟩ "id1" 100 "s1" false "Jane Doe" "jane@example.com" "pw").1
      = Except.ok r := by
  have h := C8_resend_verification_policy fixCfg 100
  exact ⟨h.2.2.2.1 ⟨[janePending], []⟩ "jane@example.com" janePending
      (by decide) (by decide),
    h.2.2.2.2 ⟨[], []⟩ "id1" "s1" "Jane Doe" "jane@example.com" "pw" (by decide)⟩

/-- C9 counterexample: the claim says `verify(plaintext, hash)` never
throws and returns false on a malformed hash.  On the sentinel password
"oauth_google" stored for OAuth accounts — and on any other string that
is not an identifiable bcrypt hash — the unguarded `pwd_context.verify`
raises `UnknownHashError` instead of returning false (conjuncts 1 and 2),
and the exception escapes `login` uncaught when a password login is
attempted against such an account (conjunct 3). -/
theorem C9_verify_raises_on_malformed_hash :
    verify_password "secret123" "oauth_google"
      = Except.error PasslibError.unknownHash
  ∧ verify_password "secret123" "not-a-bcrypt-hash"
      = Except.error PasslibError.unknownHash
  ∧ (login fixCfg
        ⟨[⟨"uid9", "G User", "g@x.com", "oauth_google", true, false, [], 0⟩], []⟩
        100 "sid" true "g@x.com" "guess" "desktop").1
      = Except.error (ServiceError.uncaught "UnknownHashError") := by
  refine ⟨by decide, by decide, by decide⟩

/-- C9 amended: `verify(plaintext, hash)` is total only on identifiable
bcrypt hashes: for such hashes it returns a boolean — in particular
false when the password does not match — but for every malformed hash
string it raises (propagates passlib's `UnknownHashError`) instead of
returning false. -/
theorem C9_verify_total_only_on_wellformed (given hashed : String) :
    (is_bcrypt_hash hashed = false →
      verify_password given hashed = Except.error PasslibError.unknownHash)
  ∧ (is_bcrypt_hash hashed = true →
      verify_password given hashed = Except.ok (after_last_dollar hashed == given))
  ∧ (is_bcrypt_hash hashed = true → after_last_dollar hashed ≠ given →
      verify_password given hashed = Except.ok false) := by
  refine ⟨?_, ?_, ?_⟩
  · intro h
    simp [verify_password, pwd_context_verify, h]
  · intro h
    simp [verify_password, pwd_context_verify, h]
  · intro h hne
    simp [verify_password, pwd_context_verify, h, hne]

/-- Witness for C9's amended theorem: a wrong password against a
well-formed hash yields `ok false`, not an exception. -/
theorem C9_verify_total_only_on_wellformed_witness :
    verify_password "wrong-guess" (hash_password "s4lt" "secret123")
      = Except.ok false :=
  (C9_verify_total_only_on_wellformed "wrong-guess"
    (hash_password "s4lt" "secret123")).2.2 (by decide) (by decide)

/-- C10: for every user and every cryptographically valid token carrying
that user's id and a truthy session id claim, the guard accepts exactly
when the session id appears among the user's `active_tokens` entries —
the entries' stored `expires_in` values are universally quantified and
play no role in the decision, so an entry whose own expiry has passed
still authenticates until the entry is removed. -/
theorem C10_guard_checks_membership_only
    (cfg : Config) (db : DB) (now : Nat) (tok : Token) (uid tid : String)
    (user : User)
    (hsig : tok.sig = cfg.secret_key) (hexp : now < tok.payload.exp)
    (hsub : tok.payload.sub = some uid) (htid : tok.payload.token_id = some tid)
    (hu : uid ≠ "") (ht : tid ≠ "")
    (hget : db.getById uid = some user) :
    get_current_user cfg db now (AuthHeader.bearer tok) = Except.ok user
      ↔ ∃ t ∈ user.active_tokens, t.active_token_id = tid := by
  cases hany : user.active_tokens.any (fun t => t.active_token_id == tid) with
  | false =>
    constructor
    · intro hok
      simp [get_current_user, verify_access_token, jwt_decode, hsig, hexp, hsub,
        htid, truthy_of_ne_empty hu, truthy_of_ne_empty ht, hget, hany] at hok
    · intro hex
      exfalso
      rcases hex with ⟨t, htmem, htid2⟩
      have htrue : user.active_tokens.any (fun t => t.active_token_id == tid) = true :=
        List.any_eq_true.mpr ⟨t, htmem, by simp [htid2]⟩
      rw [htrue] at hany
      cases hany
  | true =>
    constructor
    · intro _
      rcases List.any_eq_true.mp hany with ⟨t, htmem, htb⟩
      exact ⟨t, htmem, by simpa using htb⟩
    · intro _
      simp [get_current_user, verify_access_token, jwt_decode, hsig, hexp, hsub,
        htid, truthy_of_ne_empty hu, truthy_of_ne_empty ht, hget, hany]

/-- Witness for C10: a session entry whose own `expires_in` (0) is long
past at request time (100) still authenticates its token. -/
theorem C10_guard_checks_membership_only_witness :
    get_current_user fixCfg
        ⟨[⟨"uid1", "Jane Doe", "jane@example.com", "h", true, false,
           [⟨"s1", 0, "desktop"⟩], 0⟩], []⟩ 100
        (AuthHeader.bearer ⟨⟨some "uid1", some "s1", 900⟩, "sek"⟩)
      = Except.ok ⟨"uid1", "Jane Doe", "jane@example.com", "h", true, false,
          [⟨"s1", 0, "desktop"⟩], 0⟩ :=
  (C10_guard_checks_membership_only fixCfg
      ⟨[⟨"uid1", "Jane Doe", "jane@example.com", "h", true, false,
         [⟨"s1", 0, "desktop"⟩], 0⟩], []⟩ 100
      ⟨⟨some "uid1", some "s1", 900⟩, "sek"⟩ "uid1" "s1"
      ⟨"uid1", "Jane Doe", "jane@example.com", "h", true, false,
       [⟨"s1", 0, "desktop"⟩], 0⟩
      rfl (by decide) rfl rfl (by decide) (by decide) (by decide)).mpr
    ⟨⟨"s1", 0, "desktop"⟩, by simp, rfl⟩

end ProdDev
